import Mathlib

/-!
Verification of the ZenML model-registry abstraction
(`src/zenml/model_registries/base_model_registry.py`) and the Evidently
report step (`src/zenml/integrations/evidently/steps/evidently_report.py`).

Python `dict[str, str]` values are embedded as association lists with
distinct keys (`AList`); Python object construction with pydantic
validators is embedded as explicit constructor functions that run the
validator logic.  The abstract `BaseModelRegistry` CRUD operations have
no implementation in the excerpt, so they are modelled from the spec
(each such definition is marked in its doc comment).
-/

namespace ZenML

/-- Python `dict[str, str]`: an association list with distinct keys. -/
abbrev StrDict := AList (fun _ : String => String)

/-- `ModelVersionStage` enum from `base_model_registry.py`: the closed set
of stages a model version can be in. -/
inductive ModelVersionStage where
  | NONE
  | STAGING
  | PRODUCTION
  | ARCHIVED
deriving DecidableEq, Repr

/-- `ModelRegistration` from `base_model_registry.py`: the top-level named
entity of the registry. -/
structure ModelRegistration where
  name : String
  description : Option String
  tags : Option StrDict

/-- `ZenMLModelMetadata` from `base_model_registry.py`: structured
provenance metadata of a model version.  All fields default to `None`. -/
structure ZenMLModelMetadata where
  zenml_version : Option String
  zenml_pipeline_run_id : Option String
  zenml_pipeline_name : Option String
  zenml_step_name : Option String

/-- The default `ZenMLModelMetadata()` object: every field `None`. -/
def ZenMLModelMetadata.empty : ZenMLModelMetadata :=
  ⟨none, none, none, none⟩

/-- One step of the `fill_in_out_zenml_metadata` root validator: if the
reserved key `k` is present in the tags, copy its value into the metadata
through `set` and pop it from the tags; otherwise leave the pair alone. -/
def promoteReserved (k : String)
    (set : ZenMLModelMetadata → String → ZenMLModelMetadata)
    (st : ZenMLModelMetadata × StrDict) : ZenMLModelMetadata × StrDict :=
  match st.2.lookup k with
  | some v => (set st.1 v, st.2.erase k)
  | none => st

/-- Field setter used by the validator for `zenml_version`. -/
def setZenmlVersion (m : ZenMLModelMetadata) (v : String) : ZenMLModelMetadata :=
  { m with zenml_version := some v }

/-- Field setter used by the validator for `zenml_pipeline_run_id`. -/
def setZenmlPipelineRunId (m : ZenMLModelMetadata) (v : String) : ZenMLModelMetadata :=
  { m with zenml_pipeline_run_id := some v }

/-- Field setter used by the validator for `zenml_pipeline_name`. -/
def setZenmlPipelineName (m : ZenMLModelMetadata) (v : String) : ZenMLModelMetadata :=
  { m with zenml_pipeline_name := some v }

/-- Field setter used by the validator for `zenml_step_name`. -/
def setZenmlStepName (m : ZenMLModelMetadata) (v : String) : ZenMLModelMetadata :=
  { m with zenml_step_name := some v }

/-- The four reserved tag keys promoted into `zenml_metadata`. -/
def reservedKeys : List String :=
  ["zenml_version", "zenml_pipeline_run_id", "zenml_pipeline_name",
   "zenml_step_name"]

/-- The promotion sequence of `fill_in_out_zenml_metadata`: the four
reserved keys are checked and popped in source order (`zenml_version`,
then `zenml_pipeline_run_id`, then `zenml_pipeline_name`, then
`zenml_step_name`). -/
def promoteAll (md : ZenMLModelMetadata) (tags : StrDict) :
    ZenMLModelMetadata × StrDict :=
  promoteReserved "zenml_step_name" setZenmlStepName
    (promoteReserved "zenml_pipeline_name" setZenmlPipelineName
      (promoteReserved "zenml_pipeline_run_id" setZenmlPipelineRunId
        (promoteReserved "zenml_version" setZenmlVersion (md, tags))))

/-- `ModelVersion.fill_in_out_zenml_metadata` root validator from
`base_model_registry.py`: if `zenml_metadata` is `None` it is replaced by
a default `ZenMLModelMetadata()`; then, when `version_tags` is non-empty
(Python truthiness of the dict), each reserved key present in the tags is
copied into the metadata and popped from the tags. -/
def fill_in_out_zenml_metadata (zm : Option ZenMLModelMetadata)
    (version_tags : StrDict) : ZenMLModelMetadata × StrDict :=
  let md := zm.getD ZenMLModelMetadata.empty
  if version_tags.entries.isEmpty then (md, version_tags)
  else promoteAll md version_tags

/-- `ModelVersion` from `base_model_registry.py`. -/
structure ModelVersion where
  model_registration : ModelRegistration
  model_source_uri : String
  version_description : Option String
  version : Option String
  created_at : Option Int
  last_updated_at : Option Int
  version_stage : ModelVersionStage
  version_tags : StrDict
  registry_metadata : StrDict
  zenml_metadata : Option ZenMLModelMetadata

/-- Constructing a `ModelVersion`: pydantic fills the given field values
and then runs the `fill_in_out_zenml_metadata` root validator, which
normalises `zenml_metadata` and `version_tags`. -/
def ModelVersion.make (reg : ModelRegistration) (uri : String)
    (descr ver : Option String) (created updated : Option Int)
    (stage : ModelVersionStage) (tags regmeta : StrDict)
    (zm : Option ZenMLModelMetadata) : ModelVersion :=
  let r := fill_in_out_zenml_metadata zm tags
  { model_registration := reg
    model_source_uri := uri
    version_description := descr
    version := ver
    created_at := created
    last_updated_at := updated
    version_stage := stage
    version_tags := r.2
    registry_metadata := regmeta
    zenml_metadata := some r.1 }

/-! ### Lemmas about the reserved-key promotion -/

theorem promote_snd_self (k : String)
    (f : ZenMLModelMetadata → String → ZenMLModelMetadata)
    (st : ZenMLModelMetadata × StrDict) :
    ((promoteReserved k f st).2).lookup k = none := by
  rcases hl : st.2.lookup k with _ | v <;>
    simp [promoteReserved, hl, AList.lookup_erase]

theorem promote_snd_ne {k k' : String} (h : k' ≠ k)
    (f : ZenMLModelMetadata → String → ZenMLModelMetadata)
    (st : ZenMLModelMetadata × StrDict) :
    ((promoteReserved k f st).2).lookup k' = st.2.lookup k' := by
  rcases hl : st.2.lookup k with _ | v <;>
    simp [promoteReserved, hl, AList.lookup_erase_ne h]

theorem promote_fst_keeps (k : String)
    (f : ZenMLModelMetadata → String → ZenMLModelMetadata)
    (st : ZenMLModelMetadata × StrDict)
    (proj : ZenMLModelMetadata → Option String)
    (hf : ∀ m v, proj (f m v) = proj m) :
    proj (promoteReserved k f st).1 = proj st.1 := by
  rcases hl : st.2.lookup k with _ | v <;>
    simp [promoteReserved, hl, hf]

theorem promote_fst_sets (k : String)
    (f : ZenMLModelMetadata → String → ZenMLModelMetadata)
    (st : ZenMLModelMetadata × StrDict)
    (proj : ZenMLModelMetadata → Option String)
    (hf : ∀ m v, proj (f m v) = some v) :
    proj (promoteReserved k f st).1 = (st.2.lookup k).or (proj st.1) := by
  rcases hl : st.2.lookup k with _ | v <;>
    simp [promoteReserved, hl, hf, Option.or]

theorem promoteAll_fst_version (md : ZenMLModelMetadata) (tags : StrDict) :
    (promoteAll md tags).1.zenml_version
      = (tags.lookup "zenml_version").or md.zenml_version := by
  unfold promoteAll
  rw [promote_fst_keeps _ setZenmlStepName _ (fun m => m.zenml_version) (fun m v => rfl),
    promote_fst_keeps _ setZenmlPipelineName _ (fun m => m.zenml_version) (fun m v => rfl),
    promote_fst_keeps _ setZenmlPipelineRunId _ (fun m => m.zenml_version) (fun m v => rfl),
    promote_fst_sets _ setZenmlVersion _ (fun m => m.zenml_version) (fun m v => rfl)]

theorem promoteAll_fst_run_id (md : ZenMLModelMetadata) (tags : StrDict) :
    (promoteAll md tags).1.zenml_pipeline_run_id
      = (tags.lookup "zenml_pipeline_run_id").or md.zenml_pipeline_run_id := by
  unfold promoteAll
  rw [promote_fst_keeps _ setZenmlStepName _ (fun m => m.zenml_pipeline_run_id) (fun m v => rfl),
    promote_fst_keeps _ setZenmlPipelineName _ (fun m => m.zenml_pipeline_run_id) (fun m v => rfl),
    promote_fst_sets _ setZenmlPipelineRunId _ (fun m => m.zenml_pipeline_run_id) (fun m v => rfl),
    promote_snd_ne (by decide) setZenmlVersion _,
    promote_fst_keeps _ setZenmlVersion _ (fun m => m.zenml_pipeline_run_id) (fun m v => rfl)]

theorem promoteAll_fst_pipeline_name (md : ZenMLModelMetadata) (tags : StrDict) :
    (promoteAll md tags).1.zenml_pipeline_name
      = (tags.lookup "zenml_pipeline_name").or md.zenml_pipeline_name := by
  unfold promoteAll
  rw [promote_fst_keeps _ setZenmlStepName _ (fun m => m.zenml_pipeline_name) (fun m v => rfl),
    promote_fst_sets _ setZenmlPipelineName _ (fun m => m.zenml_pipeline_name) (fun m v => rfl),
    promote_snd_ne (by decide) setZenmlPipelineRunId _,
    promote_snd_ne (by decide) setZenmlVersion _,
    promote_fst_keeps _ setZenmlPipelineRunId _ (fun m => m.zenml_pipeline_name) (fun m v => rfl),
    promote_fst_keeps _ setZenmlVersion _ (fun m => m.zenml_pipeline_name) (fun m v => rfl)]

theorem promoteAll_fst_step_name (md : ZenMLModelMetadata) (tags : StrDict) :
    (promoteAll md tags).1.zenml_step_name
      = (tags.lookup "zenml_step_name").or md.zenml_step_name := by
  unfold promoteAll
  rw [promote_fst_sets _ setZenmlStepName _ (fun m => m.zenml_step_name) (fun m v => rfl),
    promote_snd_ne (by decide) setZenmlPipelineName _,
    promote_snd_ne (by decide) setZenmlPipelineRunId _,
    promote_snd_ne (by decide) setZenmlVersion _,
    promote_fst_keeps _ setZenmlPipelineName _ (fun m => m.zenml_step_name) (fun m v => rfl),
    promote_fst_keeps _ setZenmlPipelineRunId _ (fun m => m.zenml_step_name) (fun m v => rfl),
    promote_fst_keeps _ setZenmlVersion _ (fun m => m.zenml_step_name) (fun m v => rfl)]

theorem promoteAll_snd_reserved (md : ZenMLModelMetadata) (tags : StrDict)
    {k : String} (hk : k ∈ reservedKeys) :
    ((promoteAll md tags).2).lookup k = none := by
  unfold promoteAll
  simp only [reservedKeys, List.mem_cons, List.not_mem_nil, or_false] at hk
  rcases hk with rfl | rfl | rfl | rfl
  · rw [promote_snd_ne (by decide), promote_snd_ne (by decide),
      promote_snd_ne (by decide), promote_snd_self]
  · rw [promote_snd_ne (by decide), promote_snd_ne (by decide),
      promote_snd_self]
  · rw [promote_snd_ne (by decide), promote_snd_self]
  · rw [promote_snd_self]

theorem promoteAll_snd_free (md : ZenMLModelMetadata) (tags : StrDict)
    {k : String} (hk : k ∉ reservedKeys) :
    ((promoteAll md tags).2).lookup k = tags.lookup k := by
  unfold promoteAll
  simp only [reservedKeys, List.mem_cons, List.not_mem_nil, or_false,
    not_or] at hk
  obtain ⟨h1, h2, h3, h4⟩ := hk
  rw [promote_snd_ne h4, promote_snd_ne h3, promote_snd_ne h2,
    promote_snd_ne h1]

theorem lookup_of_entries_empty (t : StrDict) (h : t.entries.isEmpty)
    (k : String) : t.lookup k = none := by
  rw [AList.lookup_eq_none, AList.mem_keys, AList.keys]
  rw [List.isEmpty_iff] at h
  simp [h, List.keys]

theorem fill_fst_version (zm : Option ZenMLModelMetadata) (tags : StrDict) :
    (fill_in_out_zenml_metadata zm tags).1.zenml_version
      = (tags.lookup "zenml_version").or
          ((zm.getD ZenMLModelMetadata.empty).zenml_version) := by
  unfold fill_in_out_zenml_metadata
  by_cases h : tags.entries.isEmpty = true
  · simp [h, lookup_of_entries_empty tags h, Option.or]
  · simp [h, promoteAll_fst_version]

theorem fill_fst_run_id (zm : Option ZenMLModelMetadata) (tags : StrDict) :
    (fill_in_out_zenml_metadata zm tags).1.zenml_pipeline_run_id
      = (tags.lookup "zenml_pipeline_run_id").or
          ((zm.getD ZenMLModelMetadata.empty).zenml_pipeline_run_id) := by
  unfold fill_in_out_zenml_metadata
  by_cases h : tags.entries.isEmpty = true
  · simp [h, lookup_of_entries_empty tags h, Option.or]
  · simp [h, promoteAll_fst_run_id]

theorem fill_fst_pipeline_name (zm : Option ZenMLModelMetadata)
    (tags : StrDict) :
    (fill_in_out_zenml_metadata zm tags).1.zenml_pipeline_name
      = (tags.lookup "zenml_pipeline_name").or
          ((zm.getD ZenMLModelMetadata.empty).zenml_pipeline_name) := by
  unfold fill_in_out_zenml_metadata
  by_cases h : tags.entries.isEmpty = true
  · simp [h, lookup_of_entries_empty tags h, Option.or]
  · simp [h, promoteAll_fst_pipeline_name]

theorem fill_fst_step_name (zm : Option ZenMLModelMetadata)
    (tags : StrDict) :
    (fill_in_out_zenml_metadata zm tags).1.zenml_step_name
      = (tags.lookup "zenml_step_name").or
          ((zm.getD ZenMLModelMetadata.empty).zenml_step_name) := by
  unfold fill_in_out_zenml_metadata
  by_cases h : tags.entries.isEmpty = true
  · simp [h, lookup_of_entries_empty tags h, Option.or]
  · simp [h, promoteAll_fst_step_name]

theorem fill_snd_reserved (zm : Option ZenMLModelMetadata) (tags : StrDict)
    {k : String} (hk : k ∈ reservedKeys) :
    ((fill_in_out_zenml_metadata zm tags).2).lookup k = none := by
  unfold fill_in_out_zenml_metadata
  by_cases h : tags.entries.isEmpty = true
  · simp [h, lookup_of_entries_empty tags h]
  · simp [h, promoteAll_snd_reserved _ _ hk]

theorem fill_snd_free (zm : Option ZenMLModelMetadata) (tags : StrDict)
    {k : String} (hk : k ∉ reservedKeys) :
    ((fill_in_out_zenml_metadata zm tags).2).lookup k = tags.lookup k := by
  unfold fill_in_out_zenml_metadata
  by_cases h : tags.entries.isEmpty = true
  · simp [h]
  · simp [h, promoteAll_snd_free _ _ hk]

/-! ### Claims about `ModelVersion` construction -/

/-- C1: a `ModelVersion` constructed with `version_tags` containing any of
the reserved keys carries the corresponding tag values in its
`zenml_metadata`, its `version_tags` no longer contains any reserved key,
and all non-reserved tags are retained (their lookups are unchanged). -/
theorem reserved_tags_promoted_into_metadata
    (reg : ModelRegistration) (uri : String) (descr ver : Option String)
    (created updated : Option Int) (stage : ModelVersionStage)
    (tags regmeta : StrDict) (zm : Option ZenMLModelMetadata)
    (hres : ∃ k ∈ reservedKeys, (tags.lookup k).isSome) :
    ∃ md,
      (ModelVersion.make reg uri descr ver created updated stage tags
          regmeta zm).zenml_metadata = some md
      ∧ (∀ v, tags.lookup "zenml_version" = some v →
          md.zenml_version = some v)
      ∧ (∀ v, tags.lookup "zenml_pipeline_run_id" = some v →
          md.zenml_pipeline_run_id = some v)
      ∧ (∀ v, tags.lookup "zenml_pipeline_name" = some v →
          md.zenml_pipeline_name = some v)
      ∧ (∀ v, tags.lookup "zenml_step_name" = some v →
          md.zenml_step_name = some v)
      ∧ (∀ k ∈ reservedKeys,
          ((ModelVersion.make reg uri descr ver created updated stage tags
              regmeta zm).version_tags).lookup k = none)
      ∧ (∀ k ∉ reservedKeys,
          ((ModelVersion.make reg uri descr ver created updated stage tags
              regmeta zm).version_tags).lookup k = tags.lookup k) := by
  clear hres
  refine ⟨(fill_in_out_zenml_metadata zm tags).1, rfl, ?_, ?_, ?_, ?_,
    ?_, ?_⟩
  · intro v hv
    rw [fill_fst_version, hv]
    rfl
  · intro v hv
    rw [fill_fst_run_id, hv]
    rfl
  · intro v hv
    rw [fill_fst_pipeline_name, hv]
    rfl
  · intro v hv
    rw [fill_fst_step_name, hv]
    rfl
  · intro k hk
    exact fill_snd_reserved zm tags hk
  · intro k hk
    exact fill_snd_free zm tags hk

/-- The tag dictionary of the spec example for C1:
`{"zenml_pipeline_name": "p1", "color": "red"}`. -/
def tagsC1 : StrDict :=
  ((∅ : StrDict).insert "color" "red").insert "zenml_pipeline_name" "p1"

/-- Witness for C1 at the spec example input. -/
theorem reserved_tags_promoted_into_metadata_witness :
    ∃ md,
      (ModelVersion.make ⟨"m", none, none⟩ "s3://model" none (some "1")
          none none ModelVersionStage.NONE tagsC1 ∅ none).zenml_metadata
        = some md
      ∧ (∀ v, tagsC1.lookup "zenml_version" = some v →
          md.zenml_version = some v)
      ∧ (∀ v, tagsC1.lookup "zenml_pipeline_run_id" = some v →
          md.zenml_pipeline_run_id = some v)
      ∧ (∀ v, tagsC1.lookup "zenml_pipeline_name" = some v →
          md.zenml_pipeline_name = some v)
      ∧ (∀ v, tagsC1.lookup "zenml_step_name" = some v →
          md.zenml_step_name = some v)
      ∧ (∀ k ∈ reservedKeys,
          ((ModelVersion.make ⟨"m", none, none⟩ "s3://model" none (some "1")
              none none ModelVersionStage.NONE tagsC1 ∅
              none).version_tags).lookup k = none)
      ∧ (∀ k ∉ reservedKeys,
          ((ModelVersion.make ⟨"m", none, none⟩ "s3://model" none (some "1")
              none none ModelVersionStage.NONE tagsC1 ∅
              none).version_tags).lookup k = tagsC1.lookup k) :=
  reserved_tags_promoted_into_metadata ⟨"m", none, none⟩ "s3://model" none
    (some "1") none none ModelVersionStage.NONE tagsC1 ∅ none
    ⟨"zenml_pipeline_name", by decide, by decide⟩

/-- C8: however a `ModelVersion` is constructed, its `zenml_metadata` is
never `None`; omitting it or passing `None` yields the same result as
passing a default `ZenMLModelMetadata()`. -/
theorem zenml_metadata_never_none
    (reg : ModelRegistration) (uri : String) (descr ver : Option String)
    (created updated : Option Int) (stage : ModelVersionStage)
    (tags regmeta : StrDict) (zm : Option ZenMLModelMetadata) :
    ((ModelVersion.make reg uri descr ver created updated stage tags
        regmeta zm).zenml_metadata).isSome = true
    ∧ ModelVersion.make reg uri descr ver created updated stage tags
        regmeta none
      = ModelVersion.make reg uri descr ver created updated stage tags
        regmeta (some ZenMLModelMetadata.empty) :=
  ⟨rfl, rfl⟩

/-- C9: when a `ModelVersion` is constructed with explicit metadata whose
`zenml_pipeline_name` is set and tags containing the reserved key
`zenml_pipeline_name`, the tag value silently overwrites the explicitly
supplied metadata value. -/
theorem reserved_tag_overwrites_explicit_metadata
    (reg : ModelRegistration) (uri : String) (descr ver : Option String)
    (created updated : Option Int) (stage : ModelVersionStage)
    (tags regmeta : StrDict) (m0 : ZenMLModelMetadata) (w v : String)
    (hm : m0.zenml_pipeline_name = some w)
    (hv : tags.lookup "zenml_pipeline_name" = some v) :
    ∃ md,
      (ModelVersion.make reg uri descr ver created updated stage tags
          regmeta (some m0)).zenml_metadata = some md
      ∧ md.zenml_pipeline_name = some v := by
  clear hm
  refine ⟨(fill_in_out_zenml_metadata (some m0) tags).1, rfl, ?_⟩
  rw [fill_fst_pipeline_name, hv]
  rfl

/-- The explicit metadata of the C9 witness: `zenml_pipeline_name` set. -/
def metadataC9 : ZenMLModelMetadata :=
  ⟨none, none, some "explicit", none⟩

/-- The tag dictionary of the C9 witness. -/
def tagsC9 : StrDict :=
  (∅ : StrDict).insert "zenml_pipeline_name" "fromtag"

/-- Witness for C9: the tag value `"fromtag"` wins over the explicitly
supplied `"explicit"`. -/
theorem reserved_tag_overwrites_explicit_metadata_witness :
    ∃ md,
      (ModelVersion.make ⟨"m", none, none⟩ "s3://model" none (some "1")
          none none ModelVersionStage.NONE tagsC9 ∅
          (some metadataC9)).zenml_metadata = some md
      ∧ md.zenml_pipeline_name = some "fromtag" :=
  reserved_tag_overwrites_explicit_metadata ⟨"m", none, none⟩ "s3://model"
    none (some "1") none none ModelVersionStage.NONE tagsC9 ∅ metadataC9
    "explicit" "fromtag" rfl (by decide)

/-! ### The model registry

`BaseModelRegistry` in `base_model_registry.py` is abstract: every CRUD
operation is an `abstractmethod` with no implementation in the excerpt,
so the operations below are modelled from the spec (sections 3, 4.1 and
7 of `spec.md`). -/

/-- Modelled from the spec: the error taxonomy of section 7
(`NotFoundError`, `AlreadyExistsError`, `ValidationError`, `LoadError`);
no concrete exception classes appear in the excerpt. -/
inductive ZenMLError where
  | notFoundError
  | alreadyExistsError
  | validationError
  | loadError
deriving DecidableEq, Repr

/-- Modelled from the spec: the state of a model registry — a collection
of registrations (unique by name) and the model versions they own; the
excerpt contains no concrete backend. -/
structure RegistryState where
  models : List ModelRegistration
  versions : List ModelVersion

/-- The empty registry. -/
def RegistryState.empty : RegistryState :=
  { models := [], versions := [] }

/-- Does a stored version match the `(name, version)` natural key? -/
def versionMatches (name version : String) (mv : ModelVersion) : Bool :=
  mv.model_registration.name == name && mv.version == some version

/-- Modelled from the spec: `check_model_exists(name)` — never fails. -/
def check_model_exists (s : RegistryState) (name : String) : Bool :=
  s.models.any (fun r => r.name == name)

/-- Modelled from the spec: `register_model(name, description?, tags?)`
fails with `AlreadyExistsError` if `name` is already registered,
otherwise records and returns the new registration. -/
def register_model (s : RegistryState) (name : String)
    (description : Option String) (tags : Option StrDict) :
    Except ZenMLError (ModelRegistration × RegistryState) :=
  if check_model_exists s name then .error .alreadyExistsError
  else
    let r : ModelRegistration := ⟨name, description, tags⟩
    .ok (r, { s with models := r :: s.models })

/-- Modelled from the spec: `get_model(name)` fails with `NotFoundError`
when the name is unknown. -/
def get_model (s : RegistryState) (name : String) :
    Except ZenMLError ModelRegistration :=
  match s.models.find? (fun r => r.name == name) with
  | some r => .ok r
  | none => .error .notFoundError

/-- Modelled from the spec: `delete_model(name)` fails with
`NotFoundError` if the name is absent, otherwise removes the
registration and cascades to all owned versions. -/
def delete_model (s : RegistryState) (name : String) :
    Except ZenMLError RegistryState :=
  if check_model_exists s name then
    .ok { models := s.models.filter (fun r => r.name != name)
          versions := s.versions.filter
            (fun mv => mv.model_registration.name != name) }
  else .error .notFoundError

/-- Modelled from the spec: `check_model_version_exists(name, version)` —
never fails. -/
def check_model_version_exists (s : RegistryState)
    (name version : String) : Bool :=
  s.versions.any (versionMatches name version)

/-- Modelled from the spec: `get_model_version(name, version)` fails with
`NotFoundError` when the `(name, version)` key is unknown. -/
def get_model_version (s : RegistryState) (name version : String) :
    Except ZenMLError ModelVersion :=
  match s.versions.find? (versionMatches name version) with
  | some mv => .ok mv
  | none => .error .notFoundError

/-- Modelled from the spec: `register_model_version` auto-creates the
parent registration if absent; a supplied version that already exists
fails with `AlreadyExistsError`; an omitted version is allocated by the
backend (auto-increment); the new `ModelVersion` is constructed with the
default stage (`NONE`) and the pydantic validator applied. -/
def register_model_version (s : RegistryState) (name : String)
    (description : Option String) (tags : Option StrDict)
    (model_source_uri : String) (version : Option String)
    (version_description : Option String) (version_tags : StrDict)
    (registry_metadata : StrDict) (zm : Option ZenMLModelMetadata) :
    Except ZenMLError (ModelVersion × RegistryState) :=
  let reg := (s.models.find? (fun r => r.name == name)).getD
    ⟨name, description, tags⟩
  let s1 : RegistryState :=
    if check_model_exists s name then s
    else { s with models := reg :: s.models }
  let v := version.getD
    (toString ((s.versions.filter
      (fun mv => mv.model_registration.name == name)).length + 1))
  if check_model_version_exists s name v then .error .alreadyExistsError
  else
    let mv := ModelVersion.make reg model_source_uri version_description
      (some v) none none ModelVersionStage.NONE version_tags
      registry_metadata zm
    .ok (mv, { s1 with versions := mv :: s1.versions })

/-- The partial update applied by `update_model_version`: only the
provided fields change. -/
def updateFields (mv : ModelVersion) (version_description : Option String)
    (version_tags : Option StrDict)
    (version_stage : Option ModelVersionStage) : ModelVersion :=
  { mv with
    version_description := version_description.or mv.version_description
    version_tags := version_tags.getD mv.version_tags
    version_stage := version_stage.getD mv.version_stage }

/-- Modelled from the spec: `update_model_version` fails with
`NotFoundError` if the key is unknown; otherwise only the provided
fields change, and any stage transition is accepted unconditionally. -/
def update_model_version (s : RegistryState) (name version : String)
    (version_description : Option String)
    (version_tags : Option StrDict)
    (version_stage : Option ModelVersionStage) :
    Except ZenMLError (ModelVersion × RegistryState) :=
  match s.versions.find? (versionMatches name version) with
  | none => .error .notFoundError
  | some mv =>
    let mv' := updateFields mv version_description version_tags version_stage
    let vs :=
      s.versions.map (fun x => if versionMatches name version x then mv' else x)
    .ok (mv', { s with versions := vs })

/-- Is every key/value pair of `sub` present in `sup`? -/
def tagsSubset (sub sup : StrDict) : Bool :=
  sub.entries.all (fun e => sup.lookup e.1 == some e.2)

/-- The conjunctive filter predicate of `list_model_versions`: an omitted
filter accepts everything. -/
def versionFilter (name model_source_uri : Option String)
    (version_tags : Option StrDict) (mv : ModelVersion) : Bool :=
  (match name with
   | some n => mv.model_registration.name == n
   | none => true)
  && (match model_source_uri with
      | some u => mv.model_source_uri == u
      | none => true)
  && (match version_tags with
      | some t => tagsSubset t mv.version_tags
      | none => true)

/-- Modelled from the spec: `list_model_versions(name?, model_source_uri?,
tags?)` applies its optional filters conjunctively. -/
def list_model_versions (s : RegistryState)
    (name model_source_uri : Option String)
    (version_tags : Option StrDict) : List ModelVersion :=
  s.versions.filter (versionFilter name model_source_uri version_tags)

/-! ### Lemmas about the registry operations -/

theorem find?_map_update {α : Type} (p : α → Bool) (y : α)
    (hy : p y = true) :
    ∀ l : List α, (l.find? p).isSome →
      (l.map (fun x => if p x then y else x)).find? p = some y := by
  intro l
  induction l with
  | nil => intro h; simp at h
  | cons a t ih =>
    intro h
    cases hpa : p a with
    | true =>
      simp only [List.map_cons, hpa, if_true]
      exact List.find?_cons_of_pos _ hy
    | false =>
      have ht : (t.find? p).isSome := by
        simpa [List.find?_cons, hpa] using h
      simp only [List.map_cons, hpa, if_false, Bool.false_eq_true]
      rw [List.find?_cons_of_neg _ (by simp [hpa])]
      exact ih ht

theorem make_model_registration (reg : ModelRegistration) (uri : String)
    (descr ver : Option String) (created updated : Option Int)
    (stage : ModelVersionStage) (tags regmeta : StrDict)
    (zm : Option ZenMLModelMetadata) :
    (ModelVersion.make reg uri descr ver created updated stage tags
      regmeta zm).model_registration = reg := rfl

theorem make_version (reg : ModelRegistration) (uri : String)
    (descr ver : Option String) (created updated : Option Int)
    (stage : ModelVersionStage) (tags regmeta : StrDict)
    (zm : Option ZenMLModelMetadata) :
    (ModelVersion.make reg uri descr ver created updated stage tags
      regmeta zm).version = ver := rfl

theorem regName_of_find (s : RegistryState) (name : String)
    (d : ModelRegistration) (hd : d.name = name) :
    ((s.models.find? (fun r => r.name == name)).getD d).name = name := by
  cases hfind : s.models.find? (fun r => r.name == name) with
  | none => simpa using hd
  | some r =>
    have hr := List.find?_some hfind
    simpa using hr

/-! ### Claims about the registry operations -/

/-- C2: every `version_stage` lies in the closed four-value enum, and
`update_model_version` accepts a transition to any target stage
unconditionally: whenever `(name, version)` exists, the update succeeds
and a subsequent `get_model_version` returns that stage. -/
theorem stage_transitions_unconditional
    (s : RegistryState) (name version : String)
    (stage : ModelVersionStage)
    (h : check_model_version_exists s name version = true) :
    (stage = ModelVersionStage.NONE ∨ stage = ModelVersionStage.STAGING
      ∨ stage = ModelVersionStage.PRODUCTION
      ∨ stage = ModelVersionStage.ARCHIVED)
    ∧ ∃ mv s',
        update_model_version s name version none none (some stage)
          = .ok (mv, s')
        ∧ get_model_version s' name version = .ok mv
        ∧ mv.version_stage = stage := by
  constructor
  · cases stage <;> simp
  · have h2 : (s.versions.find? (versionMatches name version)).isSome := by
      unfold check_model_version_exists at h
      rw [List.any_eq_true] at h
      exact List.find?_isSome.mpr h
    obtain ⟨mv, hmv⟩ := Option.isSome_iff_exists.mp h2
    have hpmv : versionMatches name version mv = true := List.find?_some hmv
    unfold update_model_version
    rw [hmv]
    refine ⟨_, _, rfl, ?_, rfl⟩
    unfold get_model_version
    dsimp only
    rw [find?_map_update (versionMatches name version)
      (updateFields mv none none (some stage)) hpmv s.versions h2]

/-- A registry holding one model `"m"` with one version `"1"`, used by the
C2 witness. -/
def registryOneVersion : RegistryState :=
  { models := [⟨"m", none, none⟩]
    versions := [ModelVersion.make ⟨"m", none, none⟩ "s3://model" none
      (some "1") none none ModelVersionStage.NONE ∅ ∅ none] }

/-- Witness for C2: promoting version `"1"` of `"m"` to `PRODUCTION`. -/
theorem stage_transitions_unconditional_witness :
    (ModelVersionStage.PRODUCTION = ModelVersionStage.NONE
      ∨ ModelVersionStage.PRODUCTION = ModelVersionStage.STAGING
      ∨ ModelVersionStage.PRODUCTION = ModelVersionStage.PRODUCTION
      ∨ ModelVersionStage.PRODUCTION = ModelVersionStage.ARCHIVED)
    ∧ ∃ mv s',
        update_model_version registryOneVersion "m" "1" none none
          (some ModelVersionStage.PRODUCTION) = .ok (mv, s')
        ∧ get_model_version s' "m" "1" = .ok mv
        ∧ mv.version_stage = ModelVersionStage.PRODUCTION :=
  stage_transitions_unconditional registryOneVersion "m" "1"
    ModelVersionStage.PRODUCTION (by decide)

/-- C3: registering a model version with an explicit version string and no
stage, then getting it back, yields a `ModelVersion` whose stage is
`NONE` and whose `model_source_uri` is the supplied one. -/
theorem register_version_then_get
    (s : RegistryState) (name uri v : String)
    (description vdescr : Option String) (tags : Option StrDict)
    (vtags regmeta : StrDict) (zm : Option ZenMLModelMetadata)
    (mv : ModelVersion) (s' : RegistryState)
    (h : register_model_version s name description tags uri (some v)
        vdescr vtags regmeta zm = .ok (mv, s')) :
    get_model_version s' name v = .ok mv
    ∧ mv.version_stage = ModelVersionStage.NONE
    ∧ mv.model_source_uri = uri := by
  unfold register_model_version at h
  by_cases hex : check_model_version_exists s name
      ((some v).getD (toString ((s.versions.filter
        (fun x => x.model_registration.name == name)).length + 1))) = true
  · rw [if_pos hex] at h
    exact absurd h (by simp)
  · rw [if_neg hex] at h
    simp only [Except.ok.injEq, Prod.mk.injEq] at h
    obtain ⟨hmv, hs⟩ := h
    subst hmv
    subst hs
    have hreg := regName_of_find s name ⟨name, description, tags⟩ rfl
    refine ⟨?_, rfl, rfl⟩
    unfold get_model_version
    rw [List.find?_cons_of_pos _ (by
      simp [versionMatches, make_model_registration, make_version, hreg])]

/-- Witness for C3 on the empty registry. -/
theorem register_version_then_get_witness :
    get_model_version
        { models := [⟨"m", none, none⟩]
          versions := [ModelVersion.make ⟨"m", none, none⟩ "s3://model"
            none (some "1") none none ModelVersionStage.NONE ∅ ∅ none] }
        "m" "1"
      = .ok (ModelVersion.make ⟨"m", none, none⟩ "s3://model" none
          (some "1") none none ModelVersionStage.NONE ∅ ∅ none)
    ∧ (ModelVersion.make ⟨"m", none, none⟩ "s3://model" none (some "1")
        none none ModelVersionStage.NONE ∅ ∅ none).version_stage
      = ModelVersionStage.NONE
    ∧ (ModelVersion.make ⟨"m", none, none⟩ "s3://model" none (some "1")
        none none ModelVersionStage.NONE ∅ ∅ none).model_source_uri
      = "s3://model" :=
  register_version_then_get RegistryState.empty "m" "s3://model" "1"
    none none none ∅ ∅ none _ _ rfl

/-- C4: `delete_model` cascades: when the name exists the call succeeds,
removing the registration and every owned version, so any subsequent
`get_model_version` under that name fails with `NotFoundError`; a failing
call can only report `NotFoundError`, and then nothing existed to remove
(state unchanged by construction, since a failing call returns no new
state). -/
theorem delete_model_cascade (s : RegistryState) (name : String) :
    (check_model_exists s name = true →
      ∃ s', delete_model s name = .ok s'
        ∧ check_model_exists s' name = false
        ∧ ∀ version, get_model_version s' name version
            = .error ZenMLError.notFoundError)
    ∧ (∀ e, delete_model s name = .error e →
        e = ZenMLError.notFoundError ∧ check_model_exists s name = false) := by
  constructor
  · intro h
    refine ⟨{ models := s.models.filter (fun r => r.name != name)
              versions := s.versions.filter
                (fun mv => mv.model_registration.name != name) },
      ?_, ?_, ?_⟩
    · unfold delete_model
      rw [if_pos h]
    · rw [check_model_exists, List.any_eq_false]
      intro r hr
      rw [List.mem_filter] at hr
      have h2 := hr.2
      simp only [bne_iff_ne, ne_eq] at h2
      simp [h2]
    · intro version
      unfold get_model_version
      dsimp only
      have hnone : (s.versions.filter
          (fun mv => mv.model_registration.name != name)).find?
            (versionMatches name version) = none := by
        rw [List.find?_eq_none]
        intro x hx
        rw [List.mem_filter] at hx
        have h2 := hx.2
        simp only [bne_iff_ne, ne_eq] at h2
        simp [versionMatches, h2]
      rw [hnone]
  · intro e he
    unfold delete_model at he
    by_cases h : check_model_exists s name = true
    · rw [if_pos h] at he
      exact absurd he (by simp)
    · rw [if_neg h] at he
      simp only [Except.error.injEq] at he
      exact ⟨he.symm, by simpa using h⟩

/-- A registry holding one model `"m"` with two versions, for the C4
witness. -/
def registryTwoVersions : RegistryState :=
  { models := [⟨"m", none, none⟩]
    versions := [ModelVersion.make ⟨"m", none, none⟩ "s3://model-a" none
        (some "1") none none ModelVersionStage.NONE ∅ ∅ none,
      ModelVersion.make ⟨"m", none, none⟩ "s3://model-b" none
        (some "2") none none ModelVersionStage.NONE ∅ ∅ none] }

/-- Witness for C4: deleting `"m"` removes both of its versions. -/
theorem delete_model_cascade_witness :
    ∃ s', delete_model registryTwoVersions "m" = .ok s'
      ∧ check_model_exists s' "m" = false
      ∧ ∀ version, get_model_version s' "m" version
          = .error ZenMLError.notFoundError :=
  (delete_model_cascade registryTwoVersions "m").1 (by decide)

/-- C5: a successful `register_model(name)` followed by a second
`register_model(name)` fails with `AlreadyExistsError` on the second
call, and `get_model(name)` after the first call returns a registration
with that name. -/
theorem register_model_duplicate
    (s : RegistryState) (name : String) (d1 d2 : Option String)
    (t1 t2 : Option StrDict) (r : ModelRegistration) (s' : RegistryState)
    (h : register_model s name d1 t1 = .ok (r, s')) :
    register_model s' name d2 t2 = .error ZenMLError.alreadyExistsError
    ∧ ∃ r', get_model s' name = .ok r' ∧ r'.name = name := by
  unfold register_model at h
  by_cases hex : check_model_exists s name = true
  · rw [if_pos hex] at h
    exact absurd h (by simp)
  · rw [if_neg hex] at h
    simp only [Except.ok.injEq, Prod.mk.injEq] at h
    obtain ⟨hr, hs⟩ := h
    subst hr
    subst hs
    constructor
    · unfold register_model
      rw [if_pos (by simp [check_model_exists])]
    · refine ⟨⟨name, d1, t1⟩, ?_, rfl⟩
      unfold get_model
      dsimp only
      rw [List.find?_cons_of_pos _ (by simp)]

/-- Witness for C5 starting from the empty registry. -/
theorem register_model_duplicate_witness :
    register_model { models := [⟨"m", none, none⟩], versions := [] } "m"
        none none = .error ZenMLError.alreadyExistsError
    ∧ ∃ r', get_model { models := [⟨"m", none, none⟩], versions := [] } "m"
        = .ok r' ∧ r'.name = "m" :=
  register_model_duplicate RegistryState.empty "m" none none none none
    _ _ rfl

/-- C6: `list_model_versions` with no filters returns all versions; with a
name filter and a tags filter it returns exactly the versions of the
named model whose tags are a superset of the filter mapping. -/
theorem list_model_versions_conjunctive
    (s : RegistryState) (n : String) (t : StrDict) :
    list_model_versions s none none none = s.versions
    ∧ ∀ mv, mv ∈ list_model_versions s (some n) none (some t)
        ↔ mv ∈ s.versions ∧ mv.model_registration.name = n
          ∧ tagsSubset t mv.version_tags = true := by
  constructor
  · simp [list_model_versions, versionFilter]
  · intro mv
    simp [list_model_versions, List.mem_filter, versionFilter,
      Bool.and_eq_true, beq_iff_eq, and_assoc]

/-! ### The Evidently report step

From `src/zenml/integrations/evidently/steps/evidently_report.py`.
Pandas and Evidently are external collaborators: a DataFrame is abstracted
to its column labels (the step only checks membership and drops columns),
and Evidently's `ColumnMapping()` default object is universally
quantified rather than fixed. -/

/-- A pandas DataFrame, abstracted to its column labels. -/
structure DataFrame where
  columns : List String
deriving DecidableEq

/-- `DataFrame.drop(labels=cols, axis=1)`: remove the given columns. -/
def DataFrame.drop (df : DataFrame) (labels : List String) : DataFrame :=
  ⟨df.columns.filter (fun c => !(labels.contains c))⟩

/-- A raised Python exception (the step only raises `ValueError`). -/
inductive PyException where
  | valueError (msg : String)
deriving DecidableEq

/-- The `ignored_cols` handling at the start of
`EvidentlyReportStep.entrypoint`: `None` passes both datasets through
unfiltered; an empty (falsy) list raises `ValueError` — the spec's
`ValidationError` kind (malformed filter combination); a non-empty list
must be a subset of both datasets' columns and is then dropped from
both. -/
def entrypoint_ignored_cols (ignored_cols : Option (List String))
    (reference_dataset comparison_dataset : DataFrame) :
    Except PyException (DataFrame × DataFrame) :=
  match ignored_cols with
  | none => .ok (reference_dataset, comparison_dataset)
  | some cols =>
    if cols.isEmpty then
      .error (.valueError "Expects None or list of columns in strings")
    else if !(cols.all (fun c => reference_dataset.columns.contains c))
        || !(cols.all (fun c => comparison_dataset.columns.contains c)) then
      .error
        (.valueError "Column is not found in reference or comparison datasets")
    else
      .ok (reference_dataset.drop cols, comparison_dataset.drop cols)

/-- C7: an empty-but-not-`None` `ignored_cols` makes the step fail with
the validation error, while `None` is accepted and leaves both datasets
unfiltered. -/
theorem ignored_cols_empty_list_rejected (ref comp : DataFrame) :
    entrypoint_ignored_cols (some []) ref comp
      = .error (.valueError "Expects None or list of columns in strings")
    ∧ entrypoint_ignored_cols none ref comp = .ok (ref, comp) :=
  ⟨rfl, rfl⟩

/-- Python truthiness of an optional string: `None` and `""` are falsy. -/
def truthyStr (a : Option String) : Bool :=
  match a with
  | none => false
  | some s => !s.isEmpty

/-- Python truthiness of an optional list: `None` and `[]` are falsy. -/
def truthyList (a : Option (List String)) : Bool :=
  match a with
  | none => false
  | some l => !l.isEmpty

/-- Python truthiness of `Optional[Union[str, Sequence[str]]]`. -/
def truthyStrOrList (a : Option (String ⊕ List String)) : Bool :=
  match a with
  | none => false
  | some (.inl s) => !s.isEmpty
  | some (.inr l) => !l.isEmpty

/-- Python truthiness of `Optional[Union[str, int]]`. -/
def truthyStrOrInt (a : Option (String ⊕ Int)) : Bool :=
  match a with
  | none => false
  | some (.inl s) => !s.isEmpty
  | some (.inr n) => n != 0

/-- Python `a or b` for a given truthiness predicate. -/
def pyOr {α : Type} (truthy : α → Bool) (a b : α) : α :=
  if truthy a then a else b

/-- Evidently's `ColumnMapping` data type (external library). -/
structure ColumnMapping where
  target : Option String
  prediction : Option (String ⊕ List String)
  datetime : Option String
  id : Option String
  numerical_features : Option (List String)
  categorical_features : Option (List String)
  datetime_features : Option (List String)
  target_names : Option (List String)
  task : Option String
  pos_label : Option (String ⊕ Int)
  text_features : Option (List String)

/-- `EvidentlyColumnMapping` from `evidently_report.py`: the serializable
analog of Evidently's `ColumnMapping`, with the pydantic field
defaults. -/
structure EvidentlyColumnMapping where
  target : Option String := none
  prediction : Option (String ⊕ List String) := some (.inl "prediction")
  datetime : Option String := none
  id : Option String := none
  numerical_features : Option (List String) := none
  categorical_features : Option (List String) := none
  datetime_features : Option (List String) := none
  target_names : Option (List String) := none
  task : Option String := none
  pos_label : Option (String ⊕ Int) := some (.inr 1)
  text_features : Option (List String) := none

/-- `EvidentlyColumnMapping.to_evidently_column_mapping`: starting from a
freshly constructed `ColumnMapping()` (passed as `column_mapping`, since
the external defaults live in the Evidently library), each listed field
is overwritten by `self.<field> or column_mapping.<field>` — and
`categorical_features` is absent from the listed fields. -/
def EvidentlyColumnMapping.to_evidently_column_mapping
    (self : EvidentlyColumnMapping) (column_mapping : ColumnMapping) :
    ColumnMapping :=
  { column_mapping with
    target := pyOr truthyStr self.target column_mapping.target
    prediction :=
      pyOr truthyStrOrList self.prediction column_mapping.prediction
    datetime := pyOr truthyStr self.datetime column_mapping.datetime
    id := pyOr truthyStr self.id column_mapping.id
    numerical_features := pyOr truthyList self.numerical_features
      column_mapping.numerical_features
    datetime_features := pyOr truthyList self.datetime_features
      column_mapping.datetime_features
    target_names :=
      pyOr truthyList self.target_names column_mapping.target_names
    task := pyOr truthyStr self.task column_mapping.task
    pos_label := pyOr truthyStrOrInt self.pos_label column_mapping.pos_label
    text_features :=
      pyOr truthyList self.text_features column_mapping.text_features }

/-- C10: `to_evidently_column_mapping` never transfers
`categorical_features`: the result keeps the Evidently default for it, no
matter what `categorical_features` the configuration holds, while every
other field is copied with falsy values replaced by the Evidently
defaults. -/
theorem categorical_features_never_transferred
    (self : EvidentlyColumnMapping) (column_mapping : ColumnMapping) :
    ((self.to_evidently_column_mapping column_mapping).categorical_features
      = column_mapping.categorical_features)
    ∧ (∀ cats, EvidentlyColumnMapping.to_evidently_column_mapping
        { self with categorical_features := cats } column_mapping
        = self.to_evidently_column_mapping column_mapping)
    ∧ ((self.to_evidently_column_mapping column_mapping).target
      = pyOr truthyStr self.target column_mapping.target)
    ∧ ((self.to_evidently_column_mapping column_mapping).prediction
      = pyOr truthyStrOrList self.prediction column_mapping.prediction)
    ∧ ((self.to_evidently_column_mapping column_mapping).datetime
      = pyOr truthyStr self.datetime column_mapping.datetime)
    ∧ ((self.to_evidently_column_mapping column_mapping).id
      = pyOr truthyStr self.id column_mapping.id)
    ∧ ((self.to_evidently_column_mapping column_mapping).numerical_features
      = pyOr truthyList self.numerical_features
          column_mapping.numerical_features)
    ∧ ((self.to_evidently_column_mapping column_mapping).datetime_features
      = pyOr truthyList self.datetime_features
          column_mapping.datetime_features)
    ∧ ((self.to_evidently_column_mapping column_mapping).target_names
      = pyOr truthyList self.target_names column_mapping.target_names)
    ∧ ((self.to_evidently_column_mapping column_mapping).task
      = pyOr truthyStr self.task column_mapping.task)
    ∧ ((self.to_evidently_column_mapping column_mapping).pos_label
      = pyOr truthyStrOrInt self.pos_label column_mapping.pos_label)
    ∧ ((self.to_evidently_column_mapping column_mapping).text_features
      = pyOr truthyList self.text_features column_mapping.text_features) :=
  ⟨rfl, fun _ => rfl, rfl, rfl, rfl, rfl, rfl, rfl, rfl, rfl, rfl, rfl⟩

end ZenML
